import Mathlib

/-!
# Verification of the mypy-runner diagnostic classification engine

A shallow embedding of `mypyrun.py`: the classification engine
(`Options.get_status`), the path matcher, the diagnostic stream processor
(the loop body of `run`), and the startup select/ignore overlap check of
`main`, together with theorems settling the specification's claims.

Modelling conventions:
* A compiled regular expression is modelled as its match predicate
  `String → Bool` (the Python code only ever calls `regex.search(s)` and
  tests truthiness, via the helper `match(regex_list, s)`).
* Python's `None` sentinel `ALL` for an unbounded code set becomes
  `Option.none : Option (List String)`; a concrete `set` of codes becomes
  `some` of a list, with membership via `List.contains`.
* `defaultdict(int)` counters become association lists `List (String × Nat)`
  with an `incr` operation; `lookupCount` reads a key's count (0 if absent).
* Printing is modelled as a list of output events appended to the run state;
  terminal colouring, the end-of-run statistics block, and the
  `missing_imports` / `add_missing_imports` bookkeeping are elided (they
  touch no counter and no classification decision).
-/

namespace Mypyrun

/-- `match(regex_list, s)` from the source: true iff some pattern in the
list matches the string. (Renamed: `match` is a Lean keyword.) -/
def matchRe (regex_list : List (String → Bool)) (s : String) : Bool :=
  regex_list.any (fun regex => regex s)

/-- The `Options` class: per-module classification options plus the
global-only options used by the stream processor.  `select`, `ignore`,
`warn` are `None` (= the `ALL` sentinel) or a concrete code set. -/
structure Options where
  select : Option (List String)
  ignore : Option (List String)
  warn : Option (List String)
  includePats : List (String → Bool)
  exclude : List (String → Bool)
  error_filters : List (String → Bool)
  warning_filters : List (String → Bool)
  show_ignored : Bool

/-- `Options.__init__`: select = ALL, the other sets empty, lists empty;
the class-level default `show_ignored = False`. -/
def Options.init : Options :=
  { select := Option.none
    ignore := some []
    warn := some []
    includePats := []
    exclude := []
    error_filters := []
    warning_filters := []
    show_ignored := false }

/-- `Options.is_excluded_path`. -/
def Options.is_excluded_path (o : Options) (path : String) : Bool :=
  matchRe o.exclude path

/-- `Options.is_included_path`. -/
def Options.is_included_path (o : Options) (path : String) : Bool :=
  matchRe o.includePats path

/-- `self.select is not ALL and error_code in self.select` -/
def selectMatches (o : Options) (error_code : String) : Bool :=
  match o.select with
  | some sel => sel.contains error_code
  | Option.none => false

/-- `self.ignore is ALL or error_code in self.ignore` -/
def ignoreMatches (o : Options) (error_code : String) : Bool :=
  match o.ignore with
  | some ign => ign.contains error_code
  | Option.none => true

/-- `self.warn is ALL or error_code in self.warn` -/
def warnMatches (o : Options) (error_code : String) : Bool :=
  match o.warn with
  | some wrn => wrn.contains error_code
  | Option.none => true

/-- `Options.get_status`: determine whether an error code is an error,
warning, or ignored.  Returns the new status, or `none` if the diagnostic
should be filtered (suppressed). -/
def Options.get_status (o : Options) (error_code msg : String) : Option String :=
  -- We have specified something to check for
  if selectMatches o error_code then
    if matchRe o.error_filters msg then Option.none else some "error"
  -- We have specified something to ignore (specific selects override this)
  else if ignoreMatches o error_code then
    Option.none
  -- We have specified something to warn (ignore overrides this)
  else if warnMatches o error_code then
    if matchRe o.warning_filters msg then Option.none else some "warning"
  -- We're checking everything!
  else if o.select.isNone then
    if matchRe o.error_filters msg then Option.none else some "error"
  else
    Option.none

/-- A character stripped by Python's `str.strip()`. -/
def isPyWhitespace (c : Char) : Bool :=
  c = ' ' || c = '\t' || c = '\n' || c = '\r' || c = '\x0b' || c = '\x0c'

/-- Python's `s.strip()`: drop whitespace from both ends. -/
def pyStrip (s : String) : String :=
  String.mk (((s.data.dropWhile isPyWhitespace).reverse.dropWhile isPyWhitespace).reverse)

/-- Python's `s.startswith(pre)`. -/
def pyStartsWith (s pre : String) : Bool :=
  pre.data.isPrefixOf s.data

/-- `PARSING_FAIL = 100`: an exit code chosen not to conflict with mypy's. -/
def PARSING_FAIL : Nat := 100

/-- `REVEALED_TYPE = 'Revealed type is'`. -/
def REVEALED_TYPE : String := "Revealed type is"

/-- Auxiliary for Python's `str.split(sep, maxsplit)`: splits the character
list on `sep` at most `n` times; `acc` holds the reversed current field. -/
def splitMaxAux (sep : Char) : List Char → Nat → List Char → List (List Char)
  | [], _, acc => [acc.reverse]
  | c :: cs, 0, acc => splitMaxAux sep cs 0 (c :: acc)
  | c :: cs, n + 1, acc =>
      if c = sep then acc.reverse :: splitMaxAux sep cs n []
      else splitMaxAux sep cs (n + 1) (c :: acc)

/-- Python's `s.split(sep, maxsplit)` (for a one-character separator). -/
def pySplit (s : String) (sep : Char) (maxsplit : Nat) : List String :=
  (splitMaxAux sep s.data maxsplit []).map String.mk

/-- The parse step of the loop body of `run`:
`filename, lineno, status, msg = line.split(':', 3)`, falling back on
`ValueError` to `filename, status, msg = line.split(':', 2)` with
`lineno = ''`; if both unpackings fail, `none` (the line is passed
through). Python raises `ValueError` exactly when the split yields fewer
parts than the unpacking expects. -/
def parseLine (line : String) : Option (String × String × String × String) :=
  match pySplit line ':' 3 with
  | [filename, lineno, status, msg] => some (filename, lineno, status, msg)
  | _ =>
    match pySplit line ':' 2 with
    | [filename, status, msg] => some (filename, "", status, msg)
    | _ => Option.none

/-- A character of the `ERROR_CODE` character class `[a-z0-9\-_]`. -/
def isCodeChar (c : Char) : Bool :=
  (('a' ≤ c && c ≤ 'z') || ('0' ≤ c && c ≤ '9') || c = '-' || c = '_')

/-- `ERROR_CODE.search` on the reversed characters of the message with the
trailing-newline position of `$` already consumed: expects `']'`, then a
nonempty run of code characters, then `'['`. -/
def errorCodeFromRev : List Char → Option String
  | ']' :: rest =>
      let code := rest.takeWhile isCodeChar
      match code, rest.drop code.length with
      | [], _ => Option.none
      | _, '[' :: _ => some (String.mk code.reverse)
      | _, _ => Option.none
  | _ => Option.none

/-- `get_error_code`: lookup the error constant from a parsed message
literal via `ERROR_CODE = r'\[([a-z0-9\-_]+)\]\n$'`; `'Unknown'` when the
pattern does not match.  (`$` matches at the end of the string or just
before one final newline, so both `...]\n` and `...]\n\n` endings match.) -/
def get_error_code (msg : String) : String :=
  match msg.data.reverse with
  | '\n' :: '\n' :: rest =>
      (errorCodeFromRev rest).getD "Unknown"
  | '\n' :: rest =>
      (errorCodeFromRev rest).getD "Unknown"
  | _ => "Unknown"

/-- `get_options`: the first module-options entry whose `include` patterns
match the filename, else the global options.  (The source memoises this in
a cache `_cached_options`; within one run with a fixed `module_options`
list the cached and uncached results coincide, so the model is the pure
lookup.) -/
def get_options (filename : String) (global_options : Options)
    (module_options : List (String × Options)) : Options :=
  match module_options.find? (fun kv => kv.2.is_included_path filename) with
  | some kv => kv.2
  | Option.none => global_options

/-- One observable output action of `run`: a raw line printed verbatim
(`print(line, end='')`), a call to `report(...)` (colour elided; the
reported fields and the `is_filtered` flag kept), or the severe-error
warning banner. -/
inductive OutEvent where
  | verbatim (line : String)
  | reported (filename lineno status msg : String) (is_filtered : Bool)
  | banner
deriving DecidableEq, Repr

/-- Bump a `defaultdict(int)`-style counter: `m[k] += 1`. -/
def incr (m : List (String × Nat)) (k : String) : List (String × Nat) :=
  match m with
  | [] => [(k, 1)]
  | (k', n) :: rest => if k' = k then (k', n + 1) :: rest else (k', n) :: incr rest k

/-- Read a counter (0 when the key is absent, as for `defaultdict(int)`). -/
def lookupCount (m : List (String × Nat)) (k : String) : Nat :=
  match m with
  | [] => 0
  | (k', n) :: rest => if k' = k then n else lookupCount rest k

/-- The mutable state of `run`'s stream-processing loop: the latest
matched error (used to classify trailing notes), the per-path counters,
the per-code histogram, the last-seen diagnostic memo, and the output
produced so far. -/
structure RunState where
  matched_error : Option (Option String × String)
  errors : List (String × Nat)
  warnings : List (String × Nat)
  filtered : List (String × Nat)
  errors_by_type : List (String × Nat)
  last_error : Option (String × String × String × String)
  output : List OutEvent
deriving DecidableEq, Repr

/-- The loop state at the top of `run`'s loop: no matched error, all
counters empty, no last error, nothing printed. -/
def initState : RunState :=
  { matched_error := Option.none
    errors := []
    warnings := []
    filtered := []
    errors_by_type := []
    last_error := Option.none
    output := [] }

/-- The body of `run`'s loop after a successful parse: the global-exclude
check, option resolution, code extraction, stripping, the `last_error`
memo, and the `error` / `note` dispatch with its counter updates and
reporting. (`missing_imports` bookkeeping elided: it touches no counter,
no decision and no output.) -/
def processParsed (global_options : Options) (module_options : List (String × Options))
    (st : RunState) (filename lineno status0 msg0 : String) : RunState :=
  if global_options.is_excluded_path filename then
    { st with filtered := incr st.filtered filename }
  else
    let options := get_options filename global_options module_options
    let error_code := get_error_code msg0
    let status := pyStrip status0
    let msg := pyStrip msg0
    let st1 := { st with last_error := some (filename, lineno, msg, error_code) }
    if status = "error" then
      let new_status := options.get_status error_code msg
      let st2 :=
        if new_status = some "error" then
          { st1 with errors := incr st1.errors filename
                     errors_by_type := incr st1.errors_by_type error_code }
        else if new_status = some "warning" then
          { st1 with warnings := incr st1.warnings filename }
        else if new_status = Option.none then
          { st1 with filtered := incr st1.filtered filename }
        else st1
      if global_options.show_ignored || new_status.isSome then
        { st2 with
            output := st2.output ++
              [OutEvent.reported filename lineno (new_status.getD "error") msg new_status.isNone]
            matched_error := some (new_status, error_code) }
      else
        { st2 with matched_error := Option.none }
    else if status = "note" then
      match st1.matched_error with
      | some me =>
          { st1 with
              output := st1.output ++
                [OutEvent.reported filename lineno status msg me.1.isNone] }
      | Option.none =>
          if pyStartsWith msg REVEALED_TYPE then
            { st1 with
                output := st1.output ++ [OutEvent.reported filename lineno status msg false] }
          else st1
    else st1

/-- One full iteration of `run`'s loop on one raw line. -/
def processLine (global_options : Options) (module_options : List (String × Options))
    (st : RunState) (line : String) : RunState :=
  match parseLine line with
  | Option.none => { st with output := st.output ++ [OutEvent.verbatim line] }
  | some (filename, lineno, status0, msg0) =>
      processParsed global_options module_options st filename lineno status0 msg0

/-- `run`'s whole loop over the analyzer's output lines. -/
def processStream (global_options : Options) (module_options : List (String × Options))
    (lines : List String) : RunState :=
  lines.foldl (processLine global_options module_options) initState

/-- The tail of `run` after the loop (the statistics block elided):
`returncode = proc.wait(); if returncode > 1: <banner, last_error
fallback report>; return returncode; else: return returncode if errors
else 0`.  Returns the extra output of the severe path together with the
exit status. -/
def run_finalize (returncode : Nat) (st : RunState) : List OutEvent × Nat :=
  if 1 < returncode then
    (st.output ++ OutEvent.banner ::
      (match st.last_error with
       | some (filename, lineno, msg, _) => [OutEvent.reported filename lineno "error" msg false]
       | Option.none => []),
     returncode)
  else
    (st.output, if st.errors.isEmpty then 0 else returncode)

/-- The select/ignore overlap check in `main`, run once at startup before
`run` is called: `if options.select and options.ignore:` (Python
truthiness: a concrete nonempty set) `... if overlap: sys.exit(PARSING_FAIL)`.
Returns `some PARSING_FAIL` when `main` exits, `none` when it proceeds. -/
def main_overlap_exit (o : Options) : Option Nat :=
  match o.select, o.ignore with
  | some sel, some ign =>
      if sel.isEmpty then Option.none
      else if ign.isEmpty then Option.none
      else if (sel.filter (fun c => ign.contains c)).isEmpty then Option.none
      else some PARSING_FAIL
  | _, _ => Option.none

/-- Bumping a counter raises the bumped key's count by exactly one. -/
theorem lookupCount_incr (m : List (String × Nat)) (k : String) :
    lookupCount (incr m k) k = lookupCount m k + 1 := by
  induction m with
  | nil => simp [incr, lookupCount]
  | cons kv rest ih =>
      obtain ⟨k', n⟩ := kv
      by_cases h : k' = k
      · simp [incr, lookupCount, h]
      · simp [incr, lookupCount, h, ih]

/-! ## Claim C1: select-is-ALL and the ignore/warn sets -/

/-- C1, counterexample.  The claim says: when `select` is ALL, `classify`
returns `error` (there are no `error_filters` here) regardless of `ignore`
membership, the select-is-ALL case being decided before `ignore` and
`warn`.  On the code, with `select = ALL` and `ignore = {"attr-defined"}`,
the code `attr-defined` is suppressed (`None`), not `error`: the
select-is-ALL branch is the *last* check, after `ignore` and `warn`. -/
theorem C1_select_all_counterexample :
    Options.get_status
      { select := Option.none
        ignore := some ["attr-defined"]
        warn := some []
        includePats := []
        exclude := []
        error_filters := []
        warning_filters := []
        show_ignored := false } "attr-defined" "msg" = Option.none ∧
    (Option.none : Option String) ≠ some "error" := by
  exact ⟨rfl, by decide⟩

/-- C1, amended.  For a profile whose `select` is ALL, `ignore` and `warn`
are consulted first: a code matched by `ignore` is suppressed; otherwise a
code matched by `warn` is a warning (suppressed when the message matches a
`warning_filters` pattern); only otherwise does the select-is-ALL default
yield `error` (suppressed when the message matches an `error_filters`
pattern). -/
theorem C1_select_all_after_ignore_warn (o : Options) (c m : String)
    (hsel : o.select = Option.none) :
    o.get_status c m =
      if ignoreMatches o c then Option.none
      else if warnMatches o c then
        (if matchRe o.warning_filters m then Option.none else some "warning")
      else if matchRe o.error_filters m then Option.none
      else some "error" := by
  simp [Options.get_status, selectMatches, hsel]

/-- C1 amended, witness: a concrete profile with `select` ALL and
`warn = {"w-code"}`, evaluated at an ignored code. -/
theorem C1_select_all_after_ignore_warn_witness :
    Options.get_status
      { select := Option.none
        ignore := some ["i-code"]
        warn := some ["w-code"]
        includePats := []
        exclude := []
        error_filters := []
        warning_filters := []
        show_ignored := false } "i-code" "msg" = Option.none := by
  rw [C1_select_all_after_ignore_warn _ "i-code" "msg" rfl]
  decide

/-! ## Claim C2: the spec's "curated fallback to error" -/

/-- C2, counterexample.  The claim says: with `select = {}` and
`ignore = {"X"}` (and `warn` not applying), every code other than `X` is
classified `error`.  On the code, the code `"Y"` is suppressed (`None`):
the only fallback to `error` is the select-is-ALL branch, and here
`select` is a concrete empty set, so `get_status` falls through to the
final `return None`. -/
theorem C2_curated_fallback_counterexample :
    Options.get_status
      { select := some []
        ignore := some ["X"]
        warn := some []
        includePats := []
        exclude := []
        error_filters := []
        warning_filters := []
        show_ignored := false } "Y" "msg" = Option.none ∧
    (Option.none : Option String) ≠ some "error" := by
  exact ⟨rfl, by decide⟩

/-- C2, amended.  For a profile whose `select`, `ignore` and `warn` are
all concrete (non-ALL) sets none of which contains the code `c`, the code
is suppressed (`None`) — in particular with `select = {}` and
`ignore = {"X"}` every code other than `X` is suppressed, not classified
`error`: the code has no "curated fallback to error", only the
select-is-ALL fallback. -/
theorem C2_concrete_sets_suppress (o : Options) (c m : String)
    (sel ign wrn : List String)
    (hs : o.select = some sel) (hsc : sel.contains c = false)
    (hi : o.ignore = some ign) (hic : ign.contains c = false)
    (hw : o.warn = some wrn) (hwc : wrn.contains c = false) :
    o.get_status c m = Option.none := by
  have hsc' : c ∉ sel := by simpa using hsc
  have hic' : c ∉ ign := by simpa using hic
  have hwc' : c ∉ wrn := by simpa using hwc
  simp [Options.get_status, selectMatches, ignoreMatches, warnMatches,
    hs, hsc', hi, hic', hw, hwc']

/-- C2 amended, witness: the claim's own example configuration
`select = {}`, `ignore = {"X"}`, evaluated at the code `"Y"`. -/
theorem C2_concrete_sets_suppress_witness :
    Options.get_status
      { select := some []
        ignore := some ["X"]
        warn := some []
        includePats := []
        exclude := []
        error_filters := []
        warning_filters := []
        show_ignored := false } "Y" "msg" = Option.none := by
  exact C2_concrete_sets_suppress _ "Y" "msg" [] ["X"] [] rfl rfl rfl rfl rfl rfl

/-! ## Claim C4: select > ignore > warn precedence -/

/-- C4, confirmed.  For every code `c` that the (concrete) `select` set
does not claim, if `c` is in `ignore` or `ignore` is ALL then
`get_status` returns `None` (suppressed), with no hypothesis at all on
`warn` — ignore takes precedence over warn. -/
theorem C4_ignore_over_warn (o : Options) (c m : String)
    (hsel : selectMatches o c = false)
    (hig : ignoreMatches o c = true) :
    o.get_status c m = Option.none := by
  simp [Options.get_status, hsel, hig]

/-- C4, witness: `select = {}`, `ignore = {"c1"}`, `warn` = ALL; the code
`"c1"` is suppressed even though `warn` is ALL. -/
theorem C4_ignore_over_warn_witness :
    Options.get_status
      { select := some []
        ignore := some ["c1"]
        warn := Option.none
        includePats := []
        exclude := []
        error_filters := []
        warning_filters := []
        show_ignored := false } "c1" "msg" = Option.none := by
  exact C4_ignore_over_warn _ "c1" "msg" rfl rfl

/-! ## Claim C3: the default-profile round trip -/

/-- C3, counterexample.  The claim says: with a default-constructed
profile, the primary diagnostic line is suppressed and `path.py`'s
suppressed (filtered) count is 1.  On the code, `Options.__init__` sets
`select = ALL`, so the line is classified `error`: the filtered count for
`path.py` is 0 and its error count is 1. -/
theorem C3_default_roundtrip_counterexample :
    lookupCount (processStream Options.init []
      ["path.py:10:error: Argument 1 has incompatible type \"int\"; expected \"str\"\n"]).filtered
      "path.py" = 0 ∧
    lookupCount (processStream Options.init []
      ["path.py:10:error: Argument 1 has incompatible type \"int\"; expected \"str\"\n"]).errors
      "path.py" = 1 := by
  exact ⟨rfl, rfl⟩

/-- C3, amended.  With a default-constructed profile (`select = ALL`,
empty `ignore`/`warn`, no filters), the primary diagnostic line
`path.py:10:error: Argument 1 has incompatible type "int"; expected "str"`
is classified `error` (the select-is-ALL default), leaving `path.py` with
error count 1, the per-code histogram with `Unknown ↦ 1`, and zero
warnings and zero suppressed diagnostics; the line is reported
unfiltered. -/
theorem C3_default_roundtrip_is_error :
    processStream Options.init []
      ["path.py:10:error: Argument 1 has incompatible type \"int\"; expected \"str\"\n"] =
    { matched_error := some (some "error", "Unknown")
      errors := [("path.py", 1)]
      warnings := []
      filtered := []
      errors_by_type := [("Unknown", 1)]
      last_error := some ("path.py", "10",
        "Argument 1 has incompatible type \"int\"; expected \"str\"", "Unknown")
      output := [OutEvent.reported "path.py" "10" "error"
        "Argument 1 has incompatible type \"int\"; expected \"str\"" false] } := by
  rfl

/-! ## Claim C5: notes inherit the open diagnostic's disposition -/

/-- C5, confirmed.  While a primary diagnostic is open
(`matched_error = some (ns, ec)`), a continuation line whose stripped
status is `note` (on a non-excluded path) is emitted with
`is_filtered = ns.isNone` — exactly the open diagnostic's suppressed/shown
treatment, with no call to `get_status` — and the processor state changes
only in the `last_error` memo and the output: `matched_error` and every
counter are untouched, so the diagnostic stays open.  Iterating this on a
stream `[primary₁, note, note, primary₂, note]` makes the first two notes
inherit `primary₁`'s disposition and the final note `primary₂`'s (the
witness below evaluates that final step). -/
theorem C5_note_inherits_disposition (g : Options) (mo : List (String × Options))
    (st : RunState) (line f l s m : String) (ns : Option String) (ec : String)
    (hparse : parseLine line = some (f, l, s, m))
    (hexc : g.is_excluded_path f = false)
    (hnote : pyStrip s = "note")
    (hopen : st.matched_error = some (ns, ec)) :
    processLine g mo st line =
      { st with
          last_error := some (f, l, pyStrip m, get_error_code m)
          output := st.output ++ [OutEvent.reported f l "note" (pyStrip m) ns.isNone] } := by
  simp [processLine, hparse, processParsed, hexc, hnote, hopen]

/-- The options of the C5 witness scenario: `select` is ALL,
`ignore = {"arg-type"}`, `show_ignored` on (so a suppressed primary still
opens a diagnostic, with `is_filtered = true`). -/
def c5Options : Options :=
  { select := Option.none
    ignore := some ["arg-type"]
    warn := some []
    includePats := []
    exclude := []
    error_filters := []
    warning_filters := []
    show_ignored := true }

/-- The C5 witness state: the stream after `[primary₁, note, note,
primary₂]`, where `primary₁` was classified `error` and `primary₂` (code
`arg-type`) was suppressed but shown; its `matched_error` is
`some (none, "arg-type")`. -/
def c5State : RunState :=
  processStream c5Options []
    ["a.py:1:error: bad thing [assignment]\n",
     "a.py:1:note: see definition\n",
     "a.py:1:note: another hint\n",
     "a.py:5:error: ignorable [arg-type]\n"]

/-- C5, witness: the note after the second (suppressed-but-shown) primary
diagnostic is emitted with `is_filtered = true` — the second diagnostic's
disposition, not the first's (`false`). -/
theorem C5_note_inherits_disposition_witness :
    processLine c5Options [] c5State "a.py:5:note: trailing hint\n" =
      { c5State with
          last_error := some ("a.py", "5", "trailing hint", "Unknown")
          output := c5State.output ++
            [OutEvent.reported "a.py" "5" "note" "trailing hint" true] } := by
  rw [C5_note_inherits_disposition c5Options [] c5State "a.py:5:note: trailing hint\n"
    "a.py" "5" "note" " trailing hint\n" Option.none "arg-type" rfl rfl rfl (by decide)]
  rfl

/-! ## Claim C6: excluded paths -/

/-- C6, counterexample.  The claim says an excluded primary diagnostic
transitions the processor to `IDLE` so that no diagnostic remains open.
On the code, the excluded-path branch is `filtered[filename] += 1;
continue`: `matched_error` is left untouched, so the previously opened
diagnostic (here `a.py:1`, classified `error`) remains open after the
excluded line — the state is not `IDLE`. -/
theorem C6_excluded_idle_counterexample :
    (processStream
      { Options.init with exclude := [fun s => s == "skip.py"] } []
      ["a.py:1:error: bad thing [assignment]\n",
       "skip.py:2:error: whatever [misc]\n"]).matched_error =
      some (some "error", "assignment") ∧
    some (some "error", "assignment") ≠ (Option.none : Option (Option String × String)) := by
  exact ⟨rfl, by decide⟩

/-- C6, amended.  A parsed primary diagnostic line whose path matches a
global exclude pattern is never classified and never emitted, and that
path's suppressed (filtered) counter is incremented exactly once; the
rest of the processor state — in particular `matched_error` — is left
unchanged, so a previously open diagnostic remains open (the state is not
reset to `IDLE`). -/
theorem C6_excluded_path_filtered (g : Options) (mo : List (String × Options))
    (st : RunState) (line f l s m : String)
    (hparse : parseLine line = some (f, l, s, m))
    (_hstatus : pyStrip s = "error")
    (hexc : g.is_excluded_path f = true) :
    processLine g mo st line = { st with filtered := incr st.filtered f } ∧
    lookupCount (incr st.filtered f) f = lookupCount st.filtered f + 1 := by
  constructor
  · simp [processLine, hparse, processParsed, hexc]
  · exact lookupCount_incr st.filtered f

/-- C6, witness: one excluded primary diagnostic processed from the
initial state increments `skip.py`'s filtered count from 0 to 1 and
changes nothing else. -/
theorem C6_excluded_path_filtered_witness :
    processLine { Options.init with exclude := [fun s => s == "skip.py"] } []
        initState "skip.py:2:error: whatever [misc]\n" =
      { initState with filtered := incr initState.filtered "skip.py" } ∧
    lookupCount (incr initState.filtered "skip.py") "skip.py" =
      lookupCount initState.filtered "skip.py" + 1 := by
  exact C6_excluded_path_filtered _ [] initState "skip.py:2:error: whatever [misc]\n"
    "skip.py" "2" "error" " whatever [misc]\n" rfl rfl rfl

/-! ## Claim C7: pass-through of unrecognized lines -/

/-- C7, counterexample.  The claim says every line not matching the
grammar with status in {error, note} is emitted verbatim with state
unchanged — including lines that split on colons but whose status token
is neither `error` nor `note`.  On the code, the line `a:b:c: hello`
(status token `c`) parses, is classified by neither branch, and is
silently dropped: nothing is emitted, and the state is changed (the
`last_error` memo is overwritten). -/
theorem C7_bad_status_counterexample :
    (processLine Options.init [] initState "a:b:c: hello\n").output = [] ∧
    (processLine Options.init [] initState "a:b:c: hello\n").last_error ≠
      initState.last_error := by
  exact ⟨rfl, by decide⟩

/-- C7, amended.  A line that fails both colon-unpackings (fewer than two
colons) is passed through: emitted verbatim with state and counters
unchanged.  A line that parses but whose stripped status token is neither
`error` nor `note` is silently dropped instead — not emitted — leaving
every counter and `matched_error` unchanged but overwriting the
last-seen-diagnostic memo. -/
theorem C7_passthrough (g : Options) (mo : List (String × Options))
    (st : RunState) (line f l s m : String) :
    (parseLine line = Option.none →
      processLine g mo st line =
        { st with output := st.output ++ [OutEvent.verbatim line] }) ∧
    (parseLine line = some (f, l, s, m) → g.is_excluded_path f = false →
      pyStrip s ≠ "error" → pyStrip s ≠ "note" →
      processLine g mo st line =
        { st with last_error := some (f, l, pyStrip m, get_error_code m) }) := by
  constructor
  · intro h
    simp [processLine, h]
  · intro hp he hs1 hs2
    simp [processLine, hp, processParsed, he, hs1, hs2]

/-- C7, witness: the summary banner `Found 3 errors in 1 file` (no colon)
is passed through verbatim from the initial state. -/
theorem C7_passthrough_witness :
    processLine Options.init [] initState "Found 3 errors in 1 file\n" =
      { initState with
          output := initState.output ++ [OutEvent.verbatim "Found 3 errors in 1 file\n"] } := by
  exact (C7_passthrough Options.init [] initState "Found 3 errors in 1 file\n"
    "" "" "" "").1 rfl

/-! ## Claim C8: exit status -/

/-- C8, confirmed.  After the stream is consumed: if the analyzer's exit
status is strictly greater than 1, `run` appends the warning banner and
the last-seen diagnostic (when one exists) as a fallback report, and
returns the severe status unchanged; otherwise it returns the analyzer's
status when the per-path error counter is non-empty (which happens exactly
when some diagnostic was classified `error`, the only statement that
touches `errors`) and 0 when it is empty — even when the analyzer
returned 1. -/
theorem C8_exit_status (returncode : Nat) (st : RunState) :
    (1 < returncode →
      run_finalize returncode st =
        (st.output ++ OutEvent.banner ::
          (match st.last_error with
           | some (f, l, m, _) => [OutEvent.reported f l "error" m false]
           | Option.none => []), returncode)) ∧
    (returncode ≤ 1 → st.errors.isEmpty = false →
      run_finalize returncode st = (st.output, returncode)) ∧
    (returncode ≤ 1 → st.errors.isEmpty = true →
      run_finalize returncode st = (st.output, 0)) := by
  refine ⟨fun h => ?_, fun h he => ?_, fun h he => ?_⟩
  · simp [run_finalize, h]
  · rw [run_finalize, if_neg (by omega), he]
    simp
  · rw [run_finalize, if_neg (by omega), he]
    simp

/-- C8, witness: a severe exit status 2 with an empty run state returns 2
and emits the banner (no last diagnostic to fall back to); the same state
with exit status 1 returns 0 because no error was classified. -/
theorem C8_exit_status_witness :
    run_finalize 2 initState = ([OutEvent.banner], 2) ∧
    run_finalize 1 initState = ([], 0) := by
  exact ⟨(C8_exit_status 2 initState).1 (by decide),
    (C8_exit_status 1 initState).2.2 (by decide) rfl⟩

/-! ## Claim C9: the startup select/ignore overlap check -/

/-- C9, confirmed.  When the merged configuration's `select` and `ignore`
are both concrete (non-ALL) sets sharing a code, the startup check in
`main` — run once, before `run` processes any diagnostic line — exits
with `PARSING_FAIL = 100`, which differs from the "diagnostics found"
exit status 1 (and from 0); `Options.get_status` contains no such check,
so classification never re-examines the invariant. -/
theorem C9_overlap_detected (o : Options) (sel ign : List String) (c : String)
    (hs : o.select = some sel) (hi : o.ignore = some ign)
    (hcs : c ∈ sel) (hci : c ∈ ign) :
    main_overlap_exit o = some PARSING_FAIL ∧ PARSING_FAIL ≠ 1 ∧ PARSING_FAIL ≠ 0 := by
  refine ⟨?_, by decide, by decide⟩
  have h1 : sel.isEmpty = false := by
    cases sel with
    | nil => cases hcs
    | cons a t => rfl
  have h2 : ign.isEmpty = false := by
    cases ign with
    | nil => cases hci
    | cons a t => rfl
  have hcf : c ∈ sel.filter (fun x => ign.contains x) := by
    rw [List.mem_filter]
    exact ⟨hcs, by simpa using hci⟩
  have h3 : (sel.filter (fun x => ign.contains x)).isEmpty = false := by
    cases hfl : sel.filter (fun x => ign.contains x) with
    | nil => rw [hfl] at hcf; cases hcf
    | cons a t => rfl
  simp only [main_overlap_exit, hs, hi, h1, h2, h3]
  rfl

/-- C9, witness: `select = {"misc"}` and `ignore = {"misc"}` make `main`
exit with 100. -/
theorem C9_overlap_detected_witness :
    main_overlap_exit
      { select := some ["misc"]
        ignore := some ["misc"]
        warn := some []
        includePats := []
        exclude := []
        error_filters := []
        warning_filters := []
        show_ignored := false } = some PARSING_FAIL ∧
    PARSING_FAIL ≠ 1 ∧ PARSING_FAIL ≠ 0 := by
  exact C9_overlap_detected _ ["misc"] ["misc"] "misc" rfl rfl (by decide) (by decide)

/-! ## Claim C10: notes touch no counter -/

/-- C10, confirmed.  Processing a note line (`status == "note"` after
stripping) whose path is not globally excluded leaves the per-path error,
warning and suppressed (filtered) counters and the per-code histogram
exactly as they were: only primary (`error`) lines and lines on excluded
paths mutate them — a note affects only the output (and the last-seen
diagnostic memo). -/
theorem C10_notes_touch_no_counter (g : Options) (mo : List (String × Options))
    (st : RunState) (line f l s m : String)
    (hparse : parseLine line = some (f, l, s, m))
    (hexc : g.is_excluded_path f = false)
    (hnote : pyStrip s = "note") :
    (processLine g mo st line).errors = st.errors ∧
    (processLine g mo st line).warnings = st.warnings ∧
    (processLine g mo st line).filtered = st.filtered ∧
    (processLine g mo st line).errors_by_type = st.errors_by_type := by
  cases hme : st.matched_error with
  | some me =>
      simp [processLine, hparse, processParsed, hexc, hnote, hme]
  | none =>
      by_cases hr : pyStartsWith (pyStrip m) REVEALED_TYPE = true
      · simp [processLine, hparse, processParsed, hexc, hnote, hme, hr]
      · simp [processLine, hparse, processParsed, hexc, hnote, hme, hr]

/-- C10, witness: an orphaned note from the initial state changes no
counter. -/
theorem C10_notes_touch_no_counter_witness :
    (processLine Options.init [] initState "a.py:1:note: hint\n").errors =
      initState.errors ∧
    (processLine Options.init [] initState "a.py:1:note: hint\n").warnings =
      initState.warnings ∧
    (processLine Options.init [] initState "a.py:1:note: hint\n").filtered =
      initState.filtered ∧
    (processLine Options.init [] initState "a.py:1:note: hint\n").errors_by_type =
      initState.errors_by_type := by
  exact C10_notes_touch_no_counter Options.init [] initState "a.py:1:note: hint\n"
    "a.py" "1" "note" " hint\n" rfl rfl rfl

end Mypyrun
